import Mathlib

/-!
Shallow embedding of the character controller from
`src/character.js` (class `CharacterController`), together with proofs of
the behavioural properties of its jump state machine, timers, movement
velocity shaping and degraded modes.

The controller is single-threaded and frame-driven: each `update` call
reads the grounded probe and current velocity from the physics capability,
advances timers, writes one velocity command, and possibly applies a jump
impulse.  We model one `update` call as a pure function from the previous
`CharState` and the per-frame inputs (probe result, current body velocity,
movement direction, jump key, delta time) to the next `CharState` plus the
list of commands issued to the physics capability.  Machine floats are
modelled as exact rationals.
-/

namespace CharacterCtl

/-- A 3-component vector as used for positions, velocities and impulses. -/
structure Vec3 where
  x : ℚ
  y : ℚ
  z : ℚ
deriving DecidableEq

/-- A horizontal movement direction (x and z components), as produced by
`input.getMovementDirection()`. -/
structure Vec2 where
  x : ℚ
  z : ℚ
deriving DecidableEq

/-- The controller options (`this.options` in the constructor). -/
structure Options where
  moveSpeed : ℚ
  jumpForce : ℚ
  jumpCooldown : ℚ
  coyoteTime : ℚ
  jumpBufferTime : ℚ
deriving DecidableEq

/-- The default option values from the constructor:
moveSpeed 7.0, jumpForce 15.0, jumpCooldown 0.2, coyoteTime 0.15,
jumpBufferTime 0.15. -/
def defaultOptions : Options :=
  { moveSpeed := 7, jumpForce := 15, jumpCooldown := 1/5,
    coyoteTime := 3/20, jumpBufferTime := 3/20 }

/-- `this.state` of the controller. -/
structure CharState where
  isGrounded : Bool
  isJumping : Bool
  jumpCooldownTimer : ℚ
  coyoteTimeTimer : ℚ
  jumpBufferTimer : ℚ
  velocity : Vec3
  wasGrounded : Bool
  jumpRequested : Bool
deriving DecidableEq

/-- The initial state set up in the constructor. -/
def initialState : CharState :=
  { isGrounded := false, isJumping := false, jumpCooldownTimer := 0,
    coyoteTimeTimer := 0, jumpBufferTimer := 0, velocity := ⟨0, 0, 0⟩,
    wasGrounded := false, jumpRequested := false }

/-- Everything one `update` call samples from the outside world:
the ground probe result (`physics.isGrounded`), the body velocity
(`body.linvel()`), the movement direction (`input.getMovementDirection()`),
the jump key (`input.isJumping()`) and the delta time argument. -/
structure FrameInput where
  grounded : Bool
  linvel : Vec3
  dir : Vec2
  jumpPressed : Bool
  deltaTime : ℚ
deriving DecidableEq

/-- A command issued to the physics capability during one update:
`physics.setBodyVelocity` or `physics.applyImpulse`. -/
inductive Cmd where
  | setVel : Vec3 → Cmd
  | impulse : Vec3 → Cmd
deriving DecidableEq

/-- The grounded-state and timer section of `update`
(`character.js` lines 51-80): store `wasGrounded`, take the grounded probe,
run the coyote-time set/decrement, decrement the cooldown and buffer timers
when positive, and cache the current body velocity. -/
def timerPhase (opts : Options) (i : FrameInput) (s0 : CharState) : CharState :=
  let s1 := { s0 with wasGrounded := s0.isGrounded }
  let s2 := { s1 with isGrounded := i.grounded }
  let s3 :=
    if s2.wasGrounded && !s2.isGrounded then
      { s2 with coyoteTimeTimer := opts.coyoteTime }
    else if s2.coyoteTimeTimer > 0 then
      { s2 with coyoteTimeTimer := s2.coyoteTimeTimer - i.deltaTime }
    else s2
  let s4 :=
    if s3.jumpCooldownTimer > 0 then
      { s3 with jumpCooldownTimer := s3.jumpCooldownTimer - i.deltaTime }
    else s3
  let s5 :=
    if s4.jumpBufferTimer > 0 then
      { s4 with jumpBufferTimer := s4.jumpBufferTimer - i.deltaTime }
    else s4
  { s5 with velocity := i.linvel }

/-- `handleMovement`: target velocity is direction × moveSpeed on x and z,
with the cached vertical velocity preserved; it is written to the body with
one `setBodyVelocity` call and the state is not changed. -/
def handleMovement (opts : Options) (i : FrameInput) (s : CharState) : Cmd :=
  Cmd.setVel ⟨i.dir.x * opts.moveSpeed, s.velocity.y, i.dir.z * opts.moveSpeed⟩

/-- The request-latch section of `handleJump` (lines 122-139): when the key
is pressed and `jumpRequested` is not already set, set it, and if airborne
with coyote time expired also arm the jump buffer; when the key is not
pressed, clear `jumpRequested`. -/
def latchStep (opts : Options) (jumpPressed : Bool) (s : CharState) : CharState :=
  let s1 :=
    if jumpPressed && !s.jumpRequested then
      let t := { s with jumpRequested := true }
      if !t.isGrounded && decide (t.coyoteTimeTimer ≤ 0) then
        { t with jumpBufferTimer := opts.jumpBufferTime }
      else t
    else s
  if !jumpPressed then { s1 with jumpRequested := false } else s1

/-- Fire condition A, the immediate jump (line 145-147): requested, and
grounded or in coyote time, and cooldown elapsed. -/
def condA (s : CharState) : Bool :=
  s.jumpRequested && (s.isGrounded || decide (s.coyoteTimeTimer > 0)) &&
    decide (s.jumpCooldownTimer ≤ 0)

/-- The immediate-jump branch (lines 145-164): when condition A holds, apply
an upward impulse of `jumpForce`, set `isJumping`, clear the local grounded
flag, zero the coyote timer, start the cooldown and clear `jumpRequested`. -/
def fireAStep (opts : Options) (s : CharState) : CharState × List Cmd :=
  if condA s then
    ({ s with isJumping := true, isGrounded := false, coyoteTimeTimer := 0,
              jumpCooldownTimer := opts.jumpCooldown, jumpRequested := false },
     [Cmd.impulse ⟨0, opts.jumpForce, 0⟩])
  else (s, [])

/-- Fire condition B, the buffered jump (lines 167-168): buffer timer
positive, grounded, cooldown elapsed. -/
def condB (s : CharState) : Bool :=
  decide (s.jumpBufferTimer > 0) && s.isGrounded && decide (s.jumpCooldownTimer ≤ 0)

/-- The buffered-jump branch (lines 166-183): when condition B holds, apply
the impulse, set `isJumping`, zero the buffer and start the cooldown. -/
def fireBStep (opts : Options) (s : CharState) : CharState × List Cmd :=
  if condB s then
    ({ s with isJumping := true, jumpBufferTimer := 0,
              jumpCooldownTimer := opts.jumpCooldown },
     [Cmd.impulse ⟨0, opts.jumpForce, 0⟩])
  else (s, [])

/-- The landing reset (lines 185-188): grounded while `isJumping` clears
`isJumping`. -/
def landReset (s : CharState) : CharState :=
  if s.isGrounded && s.isJumping then { s with isJumping := false } else s

/-- `handleJump` (lines 121-189): latch, then fire A, then fire B, then the
landing reset, collecting the impulses applied. -/
def handleJump (opts : Options) (jumpPressed : Bool) (s : CharState) :
    CharState × List Cmd :=
  let s1 := latchStep opts jumpPressed s
  let pA := fireAStep opts s1
  let pB := fireBStep opts pA.1
  (landReset pB.1, pA.2 ++ pB.2)

/-- One `update(input, deltaTime)` call (lines 48-94).  With no body it
returns immediately; otherwise it runs the timer phase, issues the single
movement velocity write, and runs the jump logic.  The returned list is the
sequence of physics commands issued during the call. -/
def update (opts : Options) (hasBody : Bool) (i : FrameInput) (s : CharState) :
    CharState × List Cmd :=
  if !hasBody then (s, [])
  else
    let s1 := timerPhase opts i s
    let mv := handleMovement opts i s1
    let pJ := handleJump opts i.jumpPressed s1
    (pJ.1, mv :: pJ.2)

/-- `getPosition` (lines 195-201): `{0,0,0}` when the body is absent,
otherwise the position reported by the physics capability. -/
def getPosition (hasBody : Bool) (bodyPos : Vec3) : Vec3 :=
  if !hasBody then ⟨0, 0, 0⟩ else bodyPos

/-- Is a command an `applyImpulse`? -/
def isImpulse : Cmd → Bool
  | Cmd.impulse _ => true
  | Cmd.setVel _ => false

/-- Is a command a `setBodyVelocity`? -/
def isSetVel : Cmd → Bool
  | Cmd.setVel _ => true
  | Cmd.impulse _ => false

/-- The impulse commands among the commands of a frame. -/
def impulses (cs : List Cmd) : List Cmd := cs.filter isImpulse

/-- The velocity-write commands among the commands of a frame. -/
def setVels (cs : List Cmd) : List Cmd := cs.filter isSetVel

/-- The state after a sequence of `update` calls with a body present. -/
def run (opts : Options) (frames : List FrameInput) (s : CharState) : CharState :=
  frames.foldl (fun t i => (update opts true i t).1) s

/-- The state and accumulated command list after a sequence of `update`
calls with a body present. -/
def runCmds (opts : Options) (frames : List FrameInput) (s : CharState) :
    CharState × List Cmd :=
  frames.foldl (fun p i => ((update opts true i p.1).1, p.2 ++ (update opts true i p.1).2))
    (s, [])

/-! ### Structural lemmas about the phases of one update -/

theorem latchStep_isJumping (opts : Options) (p : Bool) (s : CharState) :
    (latchStep opts p s).isJumping = s.isJumping := by
  simp only [latchStep]
  repeat' split
  all_goals rfl

theorem latchStep_isGrounded (opts : Options) (p : Bool) (s : CharState) :
    (latchStep opts p s).isGrounded = s.isGrounded := by
  simp only [latchStep]
  repeat' split
  all_goals rfl

theorem latchStep_cooldown (opts : Options) (p : Bool) (s : CharState) :
    (latchStep opts p s).jumpCooldownTimer = s.jumpCooldownTimer := by
  simp only [latchStep]
  repeat' split
  all_goals rfl

theorem fireA_cmds (opts : Options) (s : CharState) :
    (fireAStep opts s).2 = if condA s then [Cmd.impulse ⟨0, opts.jumpForce, 0⟩] else [] := by
  unfold fireAStep
  split <;> simp_all

theorem fireB_cmds (opts : Options) (s : CharState) :
    (fireBStep opts s).2 = if condB s then [Cmd.impulse ⟨0, opts.jumpForce, 0⟩] else [] := by
  unfold fireBStep
  split <;> simp_all

theorem fireA_state_of_false (opts : Options) (s : CharState) (h : condA s = false) :
    (fireAStep opts s).1 = s := by
  unfold fireAStep
  simp [h]

theorem fireB_state_of_false (opts : Options) (s : CharState) (h : condB s = false) :
    (fireBStep opts s).1 = s := by
  unfold fireBStep
  simp [h]

theorem fireA_state_of_true (opts : Options) (s : CharState) (h : condA s = true) :
    (fireAStep opts s).1 =
      { s with isJumping := true, isGrounded := false, coyoteTimeTimer := 0,
               jumpCooldownTimer := opts.jumpCooldown, jumpRequested := false } := by
  unfold fireAStep
  simp [h]

theorem fireB_state_of_true (opts : Options) (s : CharState) (h : condB s = true) :
    (fireBStep opts s).1 =
      { s with isJumping := true, jumpBufferTimer := 0,
               jumpCooldownTimer := opts.jumpCooldown } := by
  unfold fireBStep
  simp [h]

theorem condB_of_not_grounded (s : CharState) (h : s.isGrounded = false) :
    condB s = false := by
  simp [condB, h]

/-- If the immediate jump fires, the buffered check that follows it in the
same call sees a state whose grounded flag was just cleared, so it cannot
fire. -/
theorem condB_after_fireA (opts : Options) (s : CharState) (h : condA s = true) :
    condB (fireAStep opts s).1 = false := by
  rw [fireA_state_of_true opts s h]
  simp [condB]

theorem handleJump_eq (opts : Options) (p : Bool) (s : CharState) :
    handleJump opts p s =
      (landReset (fireBStep opts (fireAStep opts (latchStep opts p s)).1).1,
       (fireAStep opts (latchStep opts p s)).2 ++
         (fireBStep opts (fireAStep opts (latchStep opts p s)).1).2) := rfl

theorem update_eq (opts : Options) (i : FrameInput) (s : CharState) :
    update opts true i s =
      ((handleJump opts i.jumpPressed (timerPhase opts i s)).1,
       handleMovement opts i (timerPhase opts i s) ::
         (handleJump opts i.jumpPressed (timerPhase opts i s)).2) := rfl

theorem setVels_handleJump (opts : Options) (p : Bool) (s : CharState) :
    setVels (handleJump opts p s).2 = [] := by
  rw [handleJump_eq]
  simp only [setVels, List.filter_append, fireA_cmds, fireB_cmds]
  split <;> split <;> rfl

theorem impulses_handleJump (opts : Options) (p : Bool) (s : CharState) :
    impulses (handleJump opts p s).2 =
      (if condA (latchStep opts p s) then [Cmd.impulse ⟨0, opts.jumpForce, 0⟩] else []) ++
      (if condB (fireAStep opts (latchStep opts p s)).1 then
        [Cmd.impulse ⟨0, opts.jumpForce, 0⟩] else []) := by
  rw [handleJump_eq]
  simp only [impulses, List.filter_append, fireA_cmds, fireB_cmds]
  split <;> split <;> rfl

theorem impulses_update (opts : Options) (i : FrameInput) (s : CharState) :
    impulses (update opts true i s).2 =
      impulses (handleJump opts i.jumpPressed (timerPhase opts i s)).2 := by
  rw [update_eq]
  simp [impulses, handleMovement, isImpulse]

theorem timerPhase_isJumping (opts : Options) (i : FrameInput) (s : CharState) :
    (timerPhase opts i s).isJumping = s.isJumping := by
  simp only [timerPhase]
  repeat' split
  all_goals rfl

theorem timerPhase_isGrounded (opts : Options) (i : FrameInput) (s : CharState) :
    (timerPhase opts i s).isGrounded = i.grounded := by
  simp only [timerPhase]
  repeat' split
  all_goals rfl

theorem timerPhase_jumpRequested (opts : Options) (i : FrameInput) (s : CharState) :
    (timerPhase opts i s).jumpRequested = s.jumpRequested := by
  simp only [timerPhase]
  repeat' split
  all_goals rfl

theorem timerPhase_cooldown (opts : Options) (i : FrameInput) (s : CharState) :
    (timerPhase opts i s).jumpCooldownTimer =
      if s.jumpCooldownTimer > 0 then s.jumpCooldownTimer - i.deltaTime
      else s.jumpCooldownTimer := by
  simp only [timerPhase]
  repeat' split
  all_goals simp_all

theorem timerPhase_coyote (opts : Options) (i : FrameInput) (s : CharState) :
    (timerPhase opts i s).coyoteTimeTimer =
      if s.isGrounded && !i.grounded then opts.coyoteTime
      else if s.coyoteTimeTimer > 0 then s.coyoteTimeTimer - i.deltaTime
      else s.coyoteTimeTimer := by
  simp only [timerPhase]
  repeat' split
  all_goals simp_all

theorem timerPhase_buffer (opts : Options) (i : FrameInput) (s : CharState) :
    (timerPhase opts i s).jumpBufferTimer =
      if s.jumpBufferTimer > 0 then s.jumpBufferTimer - i.deltaTime
      else s.jumpBufferTimer := by
  simp only [timerPhase]
  repeat' split
  all_goals simp_all

theorem landReset_of_not_grounded (s : CharState) (h : s.isGrounded = false) :
    landReset s = s := by
  simp [landReset, h]

theorem condB_grounded (s : CharState) (h : condB s = true) : s.isGrounded = true := by
  simp only [condB, Bool.and_eq_true] at h
  exact h.1.2

/-! ### C9: degraded mode with the body absent -/

/-- C9: if the physics body is absent, `update` is a no-op — the state is
returned unchanged and no physics command is issued — and `getPosition`
returns the zero vector.  All operations are total functions, so none can
throw. -/
theorem absent_body_noop (opts : Options) (i : FrameInput) (s : CharState) (p : Vec3) :
    update opts false i s = (s, []) ∧ getPosition false p = ⟨0, 0, 0⟩ :=
  ⟨rfl, rfl⟩

/-! ### C10: exactly one velocity write per update, overwriting horizontal
velocity from the input every frame -/

/-- C10: with a body present, every update issues exactly one
`setBodyVelocity` command, whose horizontal components are the input
direction scaled by `moveSpeed` and whose vertical component is the body
velocity read at the start of the same call.  In particular with zero input
direction the horizontal velocity is set to zero. -/
theorem setVelocity_once_per_update (opts : Options) (i : FrameInput) (s : CharState) :
    setVels (update opts true i s).2 =
      [Cmd.setVel ⟨i.dir.x * opts.moveSpeed, i.linvel.y, i.dir.z * opts.moveSpeed⟩] := by
  rw [update_eq]
  show setVels (handleMovement opts i (timerPhase opts i s) :: _) = _
  simp only [setVels, List.filter_cons, handleMovement]
  have hy : (timerPhase opts i s).velocity.y = i.linvel.y := rfl
  rw [hy]
  have h := setVels_handleJump opts i.jumpPressed (timerPhase opts i s)
  simp only [setVels] at h
  simp [h, isSetVel]

/-! ### C3: at most one impulse per update -/

/-- C3: in every single update call at most one jump impulse is applied:
condition A is evaluated before condition B, and when A fires the state B
sees has its grounded flag cleared and its cooldown freshly set, so A and B
can never both fire in one call. -/
theorem at_most_one_impulse_per_update (opts : Options) (hasBody : Bool)
    (i : FrameInput) (s : CharState) :
    (impulses (update opts hasBody i s).2).length ≤ 1 ∧
    (condA (latchStep opts i.jumpPressed (timerPhase opts i s)) &&
      condB (fireAStep opts (latchStep opts i.jumpPressed (timerPhase opts i s))).1) = false := by
  constructor
  · cases hasBody with
    | false => simp [update, impulses]
    | true =>
      rw [impulses_update, impulses_handleJump]
      by_cases hA : condA (latchStep opts i.jumpPressed (timerPhase opts i s)) = true
      · rw [condB_after_fireA opts _ hA]
        simp [hA]
      · simp only [Bool.not_eq_true] at hA
        by_cases hB : condB (fireAStep opts (latchStep opts i.jumpPressed (timerPhase opts i s))).1 = true
        · simp [hA, hB]
        · simp only [Bool.not_eq_true] at hB
          simp [hA, hB]
  · by_cases hA : condA (latchStep opts i.jumpPressed (timerPhase opts i s)) = true
    · rw [condB_after_fireA opts _ hA]
      simp
    · simp only [Bool.not_eq_true] at hA
      simp [hA]

/-! ### C4: effects of an immediate (condition A) fire -/

/-- C4: when fire condition A holds at its evaluation point (after the
timer phase and the request latch), the update applies exactly one upward
impulse of the configured jump force, and afterwards `isJumping` is true,
the local grounded flag is cleared, the coyote timer is zero, the cooldown
timer equals the configured cooldown duration, and `jumpRequested` is
cleared. -/
theorem fireA_postconditions (opts : Options) (i : FrameInput) (s : CharState)
    (hA : condA (latchStep opts i.jumpPressed (timerPhase opts i s)) = true) :
    impulses (update opts true i s).2 = [Cmd.impulse ⟨0, opts.jumpForce, 0⟩] ∧
    (update opts true i s).1.isJumping = true ∧
    (update opts true i s).1.isGrounded = false ∧
    (update opts true i s).1.coyoteTimeTimer = 0 ∧
    (update opts true i s).1.jumpCooldownTimer = opts.jumpCooldown ∧
    (update opts true i s).1.jumpRequested = false := by
  set s2 := latchStep opts i.jumpPressed (timerPhase opts i s) with hs2
  have hR := fireA_state_of_true opts s2 hA
  have hB := condB_after_fireA opts s2 hA
  have hpost : (update opts true i s).1 =
      { s2 with isJumping := true, isGrounded := false, coyoteTimeTimer := 0,
                jumpCooldownTimer := opts.jumpCooldown, jumpRequested := false } := by
    show landReset (fireBStep opts (fireAStep opts s2).1).1 = _
    rw [fireB_state_of_false opts _ hB, hR]
    simp [landReset]
  refine ⟨?_, ?_, ?_, ?_, ?_, ?_⟩
  · rw [impulses_update, impulses_handleJump, ← hs2, hA, hB]
    simp
  · rw [hpost]
  · rw [hpost]
  · rw [hpost]
  · rw [hpost]
  · rw [hpost]

/-- A frame in which the character is grounded and the jump key is pressed:
condition A fires. -/
def groundedPressFrame : FrameInput :=
  { grounded := true, linvel := ⟨0, 0, 0⟩, dir := ⟨0, 0⟩,
    jumpPressed := true, deltaTime := 1/60 }

/-- Witness for `fireA_postconditions` at the default options from the
initial state. -/
theorem fireA_postconditions_witness :
    impulses (update defaultOptions true groundedPressFrame initialState).2 =
      [Cmd.impulse ⟨0, 15, 0⟩] ∧
    (update defaultOptions true groundedPressFrame initialState).1.isJumping = true :=
  ⟨(fireA_postconditions defaultOptions groundedPressFrame initialState (by decide)).1,
   (fireA_postconditions defaultOptions groundedPressFrame initialState (by decide)).2.1⟩

/-! ### C7: the horizontal velocity written is bounded and aligned -/

/-- C7: for any input direction of squared magnitude at most one (the input
source pre-normalizes to unit length or zero), the single velocity written
to the body per update is exactly the direction scaled by `moveSpeed`
(a uniform scale, never per-axis clamping), so its horizontal squared
magnitude never exceeds `moveSpeed` squared and its direction is that of
the input. -/
theorem horizontal_velocity_bounded_and_aligned (opts : Options) (i : FrameInput)
    (s : CharState) (hdir : i.dir.x ^ 2 + i.dir.z ^ 2 ≤ 1) :
    ∃ v : Vec3, setVels (update opts true i s).2 = [Cmd.setVel v] ∧
      v.x = opts.moveSpeed * i.dir.x ∧ v.z = opts.moveSpeed * i.dir.z ∧
      v.x ^ 2 + v.z ^ 2 ≤ opts.moveSpeed ^ 2 := by
  refine ⟨_, setVelocity_once_per_update opts i s, by ring, by ring, ?_⟩
  show (i.dir.x * opts.moveSpeed) ^ 2 + (i.dir.z * opts.moveSpeed) ^ 2 ≤ opts.moveSpeed ^ 2
  have h1 : (i.dir.x * opts.moveSpeed) ^ 2 + (i.dir.z * opts.moveSpeed) ^ 2 =
      (i.dir.x ^ 2 + i.dir.z ^ 2) * opts.moveSpeed ^ 2 := by ring
  rw [h1]
  calc (i.dir.x ^ 2 + i.dir.z ^ 2) * opts.moveSpeed ^ 2
      ≤ 1 * opts.moveSpeed ^ 2 :=
        mul_le_mul_of_nonneg_right hdir (sq_nonneg opts.moveSpeed)
    _ = opts.moveSpeed ^ 2 := one_mul _

/-- A frame with a diagonal unit input direction. -/
def diagonalMoveFrame : FrameInput :=
  { grounded := true, linvel := ⟨0, -2, 0⟩, dir := ⟨3/5, 4/5⟩,
    jumpPressed := false, deltaTime := 1/60 }

/-- Witness for `horizontal_velocity_bounded_and_aligned` on a unit
diagonal direction. -/
theorem horizontal_velocity_bounded_and_aligned_witness :
    (diagonalMoveFrame.dir.x ^ 2 + diagonalMoveFrame.dir.z ^ 2 ≤ 1) ∧
    (∃ v : Vec3,
      setVels (update defaultOptions true diagonalMoveFrame initialState).2 = [Cmd.setVel v] ∧
      v.x = defaultOptions.moveSpeed * diagonalMoveFrame.dir.x ∧
      v.z = defaultOptions.moveSpeed * diagonalMoveFrame.dir.z ∧
      v.x ^ 2 + v.z ^ 2 ≤ defaultOptions.moveSpeed ^ 2) :=
  ⟨by norm_num [diagonalMoveFrame], by
    refine horizontal_velocity_bounded_and_aligned defaultOptions diagonalMoveFrame initialState ?_
    norm_num [diagonalMoveFrame]⟩

/-! ### C5: timer monotonicity and the missing clamp -/

/-- A state whose coyote timer has 0.1 s left. -/
def shortCoyoteState : CharState := { initialState with coyoteTimeTimer := 1/10 }

/-- An airborne frame with a 0.2 s timestep. -/
def bigStepAirFrame : FrameInput :=
  { grounded := false, linvel := ⟨0, 0, 0⟩, dir := ⟨0, 0⟩,
    jumpPressed := false, deltaTime := 1/5 }

/-- C5 counterexample: the decrements are not clamped at 0 — one airborne
update with deltaTime 0.2 drives a coyote timer of 0.1 to -0.1, a negative
value, refuting "never become negative (decrements are clamped at 0)". -/
theorem coyote_timer_goes_negative :
    (update defaultOptions true bigStepAirFrame shortCoyoteState).1.coyoteTimeTimer = -(1/10) ∧
    (update defaultOptions true bigStepAirFrame shortCoyoteState).1.coyoteTimeTimer < 0 := by
  constructor <;>
  norm_num [update, timerPhase, latchStep, condA, condB, fireAStep, fireBStep, landReset,
    handleJump, handleMovement, defaultOptions, initialState, bigStepAirFrame, shortCoyoteState]

/-- C5 amended: with a nonnegative deltaTime, during the timer-decrement
phase each timer is non-increasing (absent its set event — for the coyote
timer, the ground-to-air edge) and decreases by at most deltaTime; a
cooldown timer that is already at or below zero is left unchanged.  The
timers are however not clamped at 0: a decrement may overshoot below zero
by up to deltaTime. -/
theorem timers_decrease_bounded (opts : Options) (i : FrameInput) (s : CharState)
    (hdt : 0 ≤ i.deltaTime) :
    (¬(s.isGrounded = true ∧ i.grounded = false) →
        (timerPhase opts i s).coyoteTimeTimer ≤ s.coyoteTimeTimer ∧
        s.coyoteTimeTimer - i.deltaTime ≤ (timerPhase opts i s).coyoteTimeTimer) ∧
    ((timerPhase opts i s).jumpCooldownTimer ≤ s.jumpCooldownTimer ∧
        s.jumpCooldownTimer - i.deltaTime ≤ (timerPhase opts i s).jumpCooldownTimer) ∧
    ((timerPhase opts i s).jumpBufferTimer ≤ s.jumpBufferTimer ∧
        s.jumpBufferTimer - i.deltaTime ≤ (timerPhase opts i s).jumpBufferTimer) ∧
    (s.jumpCooldownTimer ≤ 0 → (timerPhase opts i s).jumpCooldownTimer = s.jumpCooldownTimer) := by
  refine ⟨?_, ?_, ?_, ?_⟩
  · intro hne
    rw [timerPhase_coyote]
    have hedge : (s.isGrounded && !i.grounded) = false := by
      cases hg : s.isGrounded <;> cases hp : i.grounded <;> simp_all
    rw [hedge]
    simp only [Bool.false_eq_true, if_false]
    split <;> constructor <;> linarith
  · rw [timerPhase_cooldown]
    split <;> constructor <;> linarith
  · rw [timerPhase_buffer]
    split <;> constructor <;> linarith
  · intro hle
    rw [timerPhase_cooldown]
    have : ¬(s.jumpCooldownTimer > 0) := by linarith
    rw [if_neg this]

/-- Witness for `timers_decrease_bounded` on a grounded frame with a
1/60 s timestep. -/
theorem timers_decrease_bounded_witness :
    (0:ℚ) ≤ (1:ℚ)/60 ∧
    ((timerPhase defaultOptions groundedPressFrame shortCoyoteState).jumpCooldownTimer ≤
        shortCoyoteState.jumpCooldownTimer ∧
      shortCoyoteState.jumpCooldownTimer - groundedPressFrame.deltaTime ≤
        (timerPhase defaultOptions groundedPressFrame shortCoyoteState).jumpCooldownTimer) ∧
    ((timerPhase defaultOptions groundedPressFrame shortCoyoteState).coyoteTimeTimer ≤
        shortCoyoteState.coyoteTimeTimer ∧
      shortCoyoteState.coyoteTimeTimer - groundedPressFrame.deltaTime ≤
        (timerPhase defaultOptions groundedPressFrame shortCoyoteState).coyoteTimeTimer) :=
  ⟨by norm_num,
   (timers_decrease_bounded defaultOptions groundedPressFrame shortCoyoteState
      (by norm_num [groundedPressFrame])).2.1,
   (timers_decrease_bounded defaultOptions groundedPressFrame shortCoyoteState
      (by norm_num [groundedPressFrame])).1 (by decide)⟩

/-! ### C6: there is no invalid-timestep handling -/

/-- A grounded state with 0.1 s of cooldown left. -/
def groundedCooldownState : CharState :=
  { initialState with isGrounded := true, jumpCooldownTimer := 1/10 }

/-- A frame whose deltaTime is -1. -/
def negativeDtFrame : FrameInput :=
  { grounded := true, linvel := ⟨0, 0, 0⟩, dir := ⟨0, 0⟩,
    jumpPressed := false, deltaTime := -1 }

/-- C6 counterexample: an update with deltaTime = -1 is not a zero-effect
frame — the cooldown timer grows from 0.1 to 1.1 (the decrement is not
skipped, and subtracting a negative increases it) and the movement velocity
write is still issued. -/
theorem negative_dt_not_zero_effect :
    (update defaultOptions true negativeDtFrame groundedCooldownState).1.jumpCooldownTimer
      = 11/10 ∧
    (update defaultOptions true negativeDtFrame groundedCooldownState).2 ≠ [] := by
  constructor <;>
  norm_num [update, timerPhase, latchStep, condA, condB, fireAStep, fireBStep, landReset,
    handleJump, handleMovement, defaultOptions, initialState, negativeDtFrame, groundedCooldownState]

/-- C6 amended: `update` performs no deltaTime validation: the timer
arithmetic and the movement write run for every deltaTime, so a negative
deltaTime strictly increases a positive cooldown timer and a physics
command is still issued. -/
theorem no_dt_validation (opts : Options) (i : FrameInput) (s : CharState)
    (hdt : i.deltaTime < 0) (hcd : 0 < s.jumpCooldownTimer) :
    s.jumpCooldownTimer < (timerPhase opts i s).jumpCooldownTimer ∧
    (update opts true i s).2 ≠ [] := by
  constructor
  · rw [timerPhase_cooldown, if_pos hcd]
    linarith
  · rw [update_eq]
    simp

/-- Witness for `no_dt_validation`. -/
theorem no_dt_validation_witness :
    groundedCooldownState.jumpCooldownTimer <
      (timerPhase defaultOptions negativeDtFrame groundedCooldownState).jumpCooldownTimer ∧
    (update defaultOptions true negativeDtFrame groundedCooldownState).2 ≠ [] :=
  no_dt_validation defaultOptions negativeDtFrame groundedCooldownState
    (by norm_num [negativeDtFrame]) (by norm_num [groundedCooldownState, initialState])

/-! ### C2: holding the jump key is not one-fire-per-press -/

/-- A grounded frame with the jump key held and a 0.1 s timestep. -/
def heldJumpFrame : FrameInput :=
  { grounded := true, linvel := ⟨0, 0, 0⟩, dir := ⟨0, 0⟩,
    jumpPressed := true, deltaTime := 1/10 }

/-- C2 counterexample: three consecutive grounded updates with the jump key
held throughout (a single press-release cycle with no release edge) apply
two jump impulses with the default options: a fire clears `jumpRequested`,
the held key re-latches it on the next frame, and a second jump fires as
soon as the 0.2 s cooldown has elapsed. -/
theorem held_jump_fires_twice :
    (impulses (runCmds defaultOptions [heldJumpFrame, heldJumpFrame, heldJumpFrame]
      initialState).2).length = 2 := by
  norm_num [runCmds, update, timerPhase, latchStep, condA, condB, fireAStep, fireBStep,
    landReset, handleJump, handleMovement, defaultOptions, initialState, heldJumpFrame,
    impulses, isImpulse, List.foldl, List.filter]

/-- C2 amended: holding the jump key can fire repeatedly within one
press-release cycle.  The request latch re-arms whenever the key is pressed
while `jumpRequested` is false — including the frame after a fire cleared
it — with no release edge required; repeat fires are limited only by the
cooldown: while the cooldown timer is positive (and the frame's deltaTime
does not exhaust it) no impulse can be applied. -/
theorem held_jump_relatch_and_cooldown :
    (∀ (opts : Options) (s : CharState), s.jumpRequested = false →
        (latchStep opts true s).jumpRequested = true) ∧
    (∀ (opts : Options) (i : FrameInput) (s : CharState),
        0 < s.jumpCooldownTimer → i.deltaTime < s.jumpCooldownTimer →
        impulses (update opts true i s).2 = []) := by
  constructor
  · intro opts s h
    simp only [latchStep, h]
    repeat' split
    all_goals simp_all
  · intro opts i s hcd hdt
    have htp : (timerPhase opts i s).jumpCooldownTimer = s.jumpCooldownTimer - i.deltaTime := by
      rw [timerPhase_cooldown, if_pos hcd]
    have hpos : 0 < (latchStep opts i.jumpPressed (timerPhase opts i s)).jumpCooldownTimer := by
      rw [latchStep_cooldown, htp]
      linarith
    have hdec : decide ((latchStep opts i.jumpPressed
        (timerPhase opts i s)).jumpCooldownTimer ≤ 0) = false :=
      decide_eq_false (by linarith)
    have hA : condA (latchStep opts i.jumpPressed (timerPhase opts i s)) = false := by
      simp [condA, hdec]
    have hB : condB (fireAStep opts
        (latchStep opts i.jumpPressed (timerPhase opts i s))).1 = false := by
      rw [fireA_state_of_false opts _ hA]
      simp [condB, hdec]
    rw [impulses_update, impulses_handleJump, hA, hB]
    simp

/-- A grounded state mid-cooldown with the request latched. -/
def midCooldownState : CharState :=
  { initialState with isGrounded := true, jumpCooldownTimer := 1/5, jumpRequested := true }

/-- Witness for `held_jump_relatch_and_cooldown`: the latch re-arms from
the initial state, and a frame during the cooldown applies no impulse even
though the character is grounded with the request latched. -/
theorem held_jump_relatch_and_cooldown_witness :
    (latchStep defaultOptions true initialState).jumpRequested = true ∧
    impulses (update defaultOptions true heldJumpFrame midCooldownState).2 = [] :=
  ⟨held_jump_relatch_and_cooldown.1 defaultOptions initialState rfl,
   held_jump_relatch_and_cooldown.2 defaultOptions heldJumpFrame midCooldownState
     (by norm_num [midCooldownState, initialState])
     (by norm_num [midCooldownState, initialState, heldJumpFrame])⟩

/-! ### C1: persistence of `isJumping` -/

theorem run_cons (opts : Options) (f : FrameInput) (fs : List FrameInput) (s : CharState) :
    run opts (f :: fs) s = run opts fs (update opts true f s).1 := rfl

/-- On an ungrounded frame, an update never clears `isJumping`: fire A can
only set it, fire B needs the grounded flag, and so does the landing
reset. -/
theorem update_isJumping_of_ungrounded (opts : Options) (i : FrameInput) (s : CharState)
    (hg : i.grounded = false) (hj : s.isJumping = true) :
    (update opts true i s).1.isJumping = true := by
  have h2j : (latchStep opts i.jumpPressed (timerPhase opts i s)).isJumping = true := by
    rw [latchStep_isJumping, timerPhase_isJumping]; exact hj
  have h2g : (latchStep opts i.jumpPressed (timerPhase opts i s)).isGrounded = false := by
    rw [latchStep_isGrounded, timerPhase_isGrounded]; exact hg
  have hpost : (update opts true i s).1 =
      landReset (fireBStep opts
        (fireAStep opts (latchStep opts i.jumpPressed (timerPhase opts i s))).1).1 := rfl
  rw [hpost]
  by_cases hA : condA (latchStep opts i.jumpPressed (timerPhase opts i s)) = true
  · have hRg : ((fireAStep opts
        (latchStep opts i.jumpPressed (timerPhase opts i s))).1).isGrounded = false := by
      rw [fireA_state_of_true opts _ hA]
    have hRj : ((fireAStep opts
        (latchStep opts i.jumpPressed (timerPhase opts i s))).1).isJumping = true := by
      rw [fireA_state_of_true opts _ hA]
    rw [fireB_state_of_false opts _ (condB_of_not_grounded _ hRg),
      landReset_of_not_grounded _ hRg]
    exact hRj
  · have hA2 : condA (latchStep opts i.jumpPressed (timerPhase opts i s)) = false := by
      simpa using hA
    rw [fireA_state_of_false opts _ hA2,
      fireB_state_of_false opts _ (condB_of_not_grounded _ h2g),
      landReset_of_not_grounded _ h2g]
    exact h2j

theorem landReset_grounded_of_isJumping (q : CharState)
    (h : (landReset q).isJumping = true) : (landReset q).isGrounded = false := by
  by_cases hc : (q.isGrounded && q.isJumping) = true
  · exfalso
    simp [landReset, hc] at h
  · have hc2 : (q.isGrounded && q.isJumping) = false := by simpa using hc
    simp only [landReset, hc2, Bool.false_eq_true, if_false] at h ⊢
    rw [h, Bool.and_true] at hc2
    exact hc2

theorem landReset_isJumping_of (q : CharState)
    (h : (landReset q).isJumping = true) : q.isJumping = true := by
  by_cases hc : (q.isGrounded && q.isJumping) = true
  · exfalso
    simp [landReset, hc] at h
  · have hc2 : (q.isGrounded && q.isJumping) = false := by simpa using hc
    simpa only [landReset, hc2, Bool.false_eq_true, if_false] using h

/-- A grounded frame with no input and a 0.1 s timestep. -/
def groundedIdleFrame : FrameInput :=
  { grounded := true, linvel := ⟨0, 0, 0⟩, dir := ⟨0, 0⟩,
    jumpPressed := false, deltaTime := 1/10 }

/-- An airborne frame with no input and a 0.1 s timestep. -/
def airFrame : FrameInput :=
  { grounded := false, linvel := ⟨0, 0, 0⟩, dir := ⟨0, 0⟩,
    jumpPressed := false, deltaTime := 1/10 }

/-- An airborne frame on which the jump key is pressed. -/
def airPressFrame : FrameInput :=
  { grounded := false, linvel := ⟨0, 0, 0⟩, dir := ⟨0, 0⟩,
    jumpPressed := true, deltaTime := 1/10 }

/-- The state after walking off a ledge, waiting out the coyote window and
pressing jump in the air: the request is buffered for landing. -/
def preLandingState : CharState :=
  run defaultOptions [groundedIdleFrame, airFrame, airFrame, airFrame, airPressFrame]
    initialState

/-- C1 counterexample: on the landing frame a buffered jump fires (exactly
one impulse is applied, which sets `isJumping` to true mid-call), yet at
the end of that same update `isJumping` is already false again — the
landing reset runs after the buffered fire on a frame whose grounded flag
is still set — and it stays false on the following airborne frame.  So
`isJumping` set by a buffered fire does not remain true until a subsequent
grounded frame. -/
theorem bufferedJump_clears_isJumping_same_frame :
    (impulses (update defaultOptions true groundedIdleFrame preLandingState).2).length = 1 ∧
    (update defaultOptions true groundedIdleFrame preLandingState).1.isJumping = false ∧
    (update defaultOptions true airFrame
      (update defaultOptions true groundedIdleFrame preLandingState).1).1.isJumping = false := by
  refine ⟨?_, ?_, ?_⟩ <;>
  norm_num [run, update, timerPhase, latchStep, condA, condB, fireAStep, fireBStep, landReset,
    handleJump, handleMovement, defaultOptions, initialState, preLandingState,
    groundedIdleFrame, airFrame, airPressFrame, impulses, isImpulse, List.foldl, List.filter]

/-- C1 amended: (1) while the grounded probe stays false, `isJumping` is
never cleared, so once true it remains true until the first frame whose
probe is grounded; (2) a buffered (condition B) fire happens on a frame
whose grounded flag is set, and the landing reset clears `isJumping` within
that same update even though the one impulse was applied; (3) whenever
`isJumping` is true after an update the grounded flag is false (the
character has not re-grounded); (4) `isJumping` can only become true in an
update that applies a jump impulse. -/
theorem isJumping_persistence_and_fire :
    (∀ (opts : Options) (s : CharState) (frames : List FrameInput),
        (∀ f ∈ frames, f.grounded = false) → s.isJumping = true →
        (run opts frames s).isJumping = true) ∧
    (∀ (opts : Options) (i : FrameInput) (s : CharState),
        condA (latchStep opts i.jumpPressed (timerPhase opts i s)) = false →
        condB (latchStep opts i.jumpPressed (timerPhase opts i s)) = true →
        (update opts true i s).1.isJumping = false ∧
        (impulses (update opts true i s).2).length = 1) ∧
    (∀ (opts : Options) (i : FrameInput) (s : CharState),
        (update opts true i s).1.isJumping = true →
        (update opts true i s).1.isGrounded = false) ∧
    (∀ (opts : Options) (i : FrameInput) (s : CharState),
        s.isJumping = false → (update opts true i s).1.isJumping = true →
        1 ≤ (impulses (update opts true i s).2).length) := by
  refine ⟨?_, ?_, ?_, ?_⟩
  · intro opts s frames
    induction frames generalizing s with
    | nil => intro _ hj; exact hj
    | cons f fs ih =>
      intro hall hj
      rw [run_cons]
      exact ih _ (fun g hg => hall g (List.mem_cons_of_mem f hg))
        (update_isJumping_of_ungrounded opts f s (hall f (List.mem_cons_self f fs)) hj)
  · intro opts i s hA hB
    have hfix : (fireAStep opts (latchStep opts i.jumpPressed (timerPhase opts i s))).1
        = latchStep opts i.jumpPressed (timerPhase opts i s) :=
      fireA_state_of_false opts _ hA
    have hpost : (update opts true i s).1 =
        landReset (fireBStep opts
          (fireAStep opts (latchStep opts i.jumpPressed (timerPhase opts i s))).1).1 := rfl
    constructor
    · rw [hpost, hfix, fireB_state_of_true opts _ hB]
      have hg2 : (latchStep opts i.jumpPressed (timerPhase opts i s)).isGrounded = true :=
        condB_grounded _ hB
      simp [landReset, hg2]
    · rw [impulses_update, impulses_handleJump, hA, hfix, hB]
      simp
  · intro opts i s hj
    have hpost : (update opts true i s).1 =
        landReset (fireBStep opts
          (fireAStep opts (latchStep opts i.jumpPressed (timerPhase opts i s))).1).1 := rfl
    rw [hpost] at hj ⊢
    exact landReset_grounded_of_isJumping _ hj
  · intro opts i s hj0 hj1
    by_cases hA : condA (latchStep opts i.jumpPressed (timerPhase opts i s)) = true
    · rw [impulses_update, impulses_handleJump, hA, condB_after_fireA opts _ hA]
      simp
    · have hA2 : condA (latchStep opts i.jumpPressed (timerPhase opts i s)) = false := by
        simpa using hA
      by_cases hB : condB (latchStep opts i.jumpPressed (timerPhase opts i s)) = true
      · rw [impulses_update, impulses_handleJump, hA2, fireA_state_of_false opts _ hA2, hB]
        simp
      · exfalso
        have hB2 : condB (latchStep opts i.jumpPressed (timerPhase opts i s)) = false := by
          simpa using hB
        have hpost : (update opts true i s).1 =
            landReset (fireBStep opts
              (fireAStep opts (latchStep opts i.jumpPressed (timerPhase opts i s))).1).1 := rfl
        rw [hpost, fireA_state_of_false opts _ hA2, fireB_state_of_false opts _ hB2] at hj1
        have hj2 := landReset_isJumping_of _ hj1
        rw [latchStep_isJumping, timerPhase_isJumping, hj0] at hj2
        exact Bool.false_ne_true hj2

/-- A state already in the air mid-jump. -/
def jumpingAirState : CharState := { initialState with isJumping := true }

/-- Witness for `isJumping_persistence_and_fire`, instantiating each part:
persistence over one airborne frame; the buffered landing fire of
`preLandingState`; and the immediate grounded fire from the initial
state. -/
theorem isJumping_persistence_and_fire_witness :
    (run defaultOptions [airFrame] jumpingAirState).isJumping = true ∧
    ((update defaultOptions true groundedIdleFrame preLandingState).1.isJumping = false ∧
      (impulses (update defaultOptions true groundedIdleFrame preLandingState).2).length = 1) ∧
    (update defaultOptions true groundedPressFrame initialState).1.isGrounded = false ∧
    1 ≤ (impulses (update defaultOptions true groundedPressFrame initialState).2).length := by
  refine ⟨isJumping_persistence_and_fire.1 defaultOptions jumpingAirState [airFrame] ?_ rfl,
    isJumping_persistence_and_fire.2.1 defaultOptions groundedIdleFrame preLandingState ?_ ?_,
    isJumping_persistence_and_fire.2.2.1 defaultOptions groundedPressFrame initialState ?_,
    isJumping_persistence_and_fire.2.2.2 defaultOptions groundedPressFrame initialState rfl ?_⟩
  · intro f hf
    rw [List.mem_singleton] at hf
    rw [hf]
    rfl
  · norm_num [run, update, timerPhase, latchStep, condA, condB, fireAStep, fireBStep, landReset,
      handleJump, handleMovement, defaultOptions, initialState, preLandingState,
      groundedIdleFrame, airFrame, airPressFrame, List.foldl]
  · norm_num [run, update, timerPhase, latchStep, condA, condB, fireAStep, fireBStep, landReset,
      handleJump, handleMovement, defaultOptions, initialState, preLandingState,
      groundedIdleFrame, airFrame, airPressFrame, List.foldl]
  · norm_num [update, timerPhase, latchStep, condA, condB, fireAStep, fireBStep, landReset,
      handleJump, handleMovement, defaultOptions, initialState, groundedPressFrame]
  · norm_num [update, timerPhase, latchStep, condA, condB, fireAStep, fireBStep, landReset,
      handleJump, handleMovement, defaultOptions, initialState, groundedPressFrame]

/-! ### C8: `getState` is only a shallow copy

`getState` (lines 207-209) is `return { ...this.state }`.  In JavaScript
the object spread copies each field value: primitive fields (booleans and
numbers) are copied by value, but `velocity` holds an object reference, and
the spread copies the reference, not the `Vec3` object behind it.  To state
this we model `this.state` as an object whose `velocity` field is a
reference into a store of vector objects. -/

/-- The store of heap-allocated `Vec3` objects, indexed by reference. -/
def Store : Type := List Vec3

/-- `this.state` as a JS object: primitive fields by value, `velocity` as a
reference into the store. -/
structure StateObj where
  isGrounded : Bool
  isJumping : Bool
  jumpCooldownTimer : ℚ
  coyoteTimeTimer : ℚ
  jumpBufferTimer : ℚ
  velocityRef : Nat
  wasGrounded : Bool
  jumpRequested : Bool
deriving DecidableEq

/-- `getState` (lines 207-209): the object spread `{ ...this.state }`
copies every field value; the `velocity` field's value is its reference,
so the snapshot holds the same reference as the internal state. -/
def getState (s : StateObj) : StateObj :=
  { isGrounded := s.isGrounded, isJumping := s.isJumping,
    jumpCooldownTimer := s.jumpCooldownTimer, coyoteTimeTimer := s.coyoteTimeTimer,
    jumpBufferTimer := s.jumpBufferTimer, velocityRef := s.velocityRef,
    wasGrounded := s.wasGrounded, jumpRequested := s.jumpRequested }

/-- Dereference a vector object. -/
def readVec (store : Store) (r : Nat) : Vec3 := List.getD store r ⟨0, 0, 0⟩

/-- Assign to a vector object through a reference (what
`snapshot.velocity.x = …` does to the shared object). -/
def writeVec (store : Store) (r : Nat) (v : Vec3) : Store := List.set store r v

/-- The controller's internal velocity as observed through its own
reference. -/
def internalVelocity (store : Store) (s : StateObj) : Vec3 :=
  readVec store s.velocityRef

theorem getD_set_self (l : List Vec3) (r : Nat) (v d : Vec3) (h : r < l.length) :
    (l.set r v).getD r d = v := by
  induction l generalizing r with
  | nil => simp at h
  | cons a t ih =>
    cases r with
    | zero => rfl
    | succ n =>
      simp only [List.set, List.getD_cons_succ]
      exact ih n (by simpa using h)

/-- A one-object store holding the zero velocity vector. -/
def demoStore : Store := [⟨0, 0, 0⟩]

/-- A controller state whose velocity reference points at the single store
slot. -/
def demoState : StateObj :=
  { isGrounded := false, isJumping := false, jumpCooldownTimer := 0,
    coyoteTimeTimer := 0, jumpBufferTimer := 0, velocityRef := 0,
    wasGrounded := false, jumpRequested := false }

/-- C8 counterexample: the snapshot returned by `getState` shares its
nested velocity object with the internal state, so writing through the
snapshot's velocity changes the velocity the controller observes
internally — from `{0,0,0}` to `{1,2,3}` — refuting that no mutation of
the returned object can change internal state. -/
theorem getState_velocity_aliased :
    internalVelocity demoStore demoState = ⟨0, 0, 0⟩ ∧
    internalVelocity (writeVec demoStore (getState demoState).velocityRef ⟨1, 2, 3⟩)
      demoState = ⟨1, 2, 3⟩ := by
  refine ⟨rfl, rfl⟩

/-- C8 amended: `getState` returns a shallow copy: every primitive field is
copied by value (so reassigning one on the snapshot cannot reach the
controller), but the `velocity` field of the snapshot is the same
reference as the internal one, so a write through the snapshot's velocity
object is observed through the controller's internal reference. -/
theorem getState_shallow_copy (store : Store) (s : StateObj) (v : Vec3)
    (h : s.velocityRef < store.length) :
    (getState s).velocityRef = s.velocityRef ∧
    internalVelocity (writeVec store (getState s).velocityRef v) s = v := by
  refine ⟨rfl, ?_⟩
  show readVec (List.set store s.velocityRef v) s.velocityRef = v
  exact getD_set_self store s.velocityRef v _ h

/-- Witness for `getState_shallow_copy` on the one-slot store. -/
theorem getState_shallow_copy_witness :
    demoState.velocityRef < demoStore.length ∧
    ((getState demoState).velocityRef = demoState.velocityRef ∧
      internalVelocity (writeVec demoStore (getState demoState).velocityRef ⟨5, 6, 7⟩)
        demoState = ⟨5, 6, 7⟩) :=
  ⟨by decide, getState_shallow_copy demoStore demoState ⟨5, 6, 7⟩ (by decide)⟩

end CharacterCtl
